import Mathlib

/-!
Verification of `core/lib/storage/src/chain/operations_ext/mod.rs`
(`OperationsExtSchema`): read-side resolution, pagination and enrichment of
account history, receipts and batch status.

Modelling conventions:
* byte-string identifiers (tx hashes, eth hashes, addresses) are modelled as
  `Nat` ids; timestamps (`created_at`) as `Nat`; database integer columns as
  `Nat`/`Int` with the source's `as i64` / `as i32` casts made explicit where
  they matter;
* the backing store is an explicit `ChainState` record of table contents;
  a store query that cannot fail is modelled as a pure function, while
  operations that can fail (a malformed SQL statement, a Rust panic such as
  `.expect(..)`) are modelled in `Except String`;
* `serde_json::Value` payloads are modelled by the `Jx` type below, with the
  `Index` ("missing key yields Null"), `as_str`, `as_i64`, `as_u64` and
  `get_mut` access patterns used by the source.
-/

namespace OpsExt

/-- Minimal model of `serde_json::Value` as used by the payload-probing code
(arrays are never inspected by the code under scrutiny, so they are omitted). -/
inductive Jx where
  | null : Jx
  | bool : Bool → Jx
  | num : Int → Jx
  | str : String → Jx
  | obj : List (String × Jx) → Jx
deriving Repr

/-- First value bound to `key` in an association list of JSON object fields. -/
def lookupField : List (String × Jx) → String → Option Jx
  | [], _ => none
  | (k, v) :: rest, key => if k = key then some v else lookupField rest key

/-- Rust `Value` indexing `v["key"]`: a missing key (or a non-object) yields `Null`. -/
def Jx.get (j : Jx) (key : String) : Jx :=
  match j with
  | .obj fields => (lookupField fields key).getD .null
  | _ => .null

/-- Rust `Value::get` / `get_mut`: `some` exactly when the object has the key. -/
def Jx.getField? (j : Jx) (key : String) : Option Jx :=
  match j with
  | .obj fields => lookupField fields key
  | _ => none

/-- Rust `Value::as_str`. -/
def Jx.asStr : Jx → Option String
  | .str s => some s
  | _ => none

/-- Rust `Value::as_i64`: defined on integer numbers in the `i64` range
[-2^63, 2^63). A nonnegative `Int.ofNat n` is representable when
`n < 2^63`; a negative `Int.negSucc m` (value `-(m+1)`) when `m < 2^63`. -/
def Jx.asI64 : Jx → Option Int
  | .num (.ofNat n) => if n < 9223372036854775808 then some (.ofNat n) else none
  | .num (.negSucc m) => if m < 9223372036854775808 then some (.negSucc m) else none
  | _ => none

/-- Rust `Value::as_u64`: defined on integer numbers in the `u64` range
[0, 2^64). -/
def Jx.asU64 : Jx → Option Nat
  | .num (.ofNat n) => if n < 18446744073709551616 then some n else none
  | _ => none

/-- Replace the value of an existing field, leaving the object unchanged when
the key is absent (the effect of writing through a successful `get_mut`). -/
def setFieldList : List (String × Jx) → String → Jx → List (String × Jx)
  | [], _, _ => []
  | (k, v) :: rest, key, newV =>
    if k = key then (k, newV) :: rest else (k, v) :: setFieldList rest key newV

/-- Write `v` into field `key` of `j` when that field exists. -/
def Jx.setExisting (j : Jx) (key : String) (v : Jx) : Jx :=
  match j with
  | .obj fields => .obj (setFieldList fields key v)
  | other => other

/-! ### Stored records (table rows) -/

/-- Row of `executed_transactions` (`tx` is the submitted transaction payload,
`operation` the executed-operation payload — both JSON columns). -/
structure ExecutedTx where
  txHash : Nat
  blockNumber : Nat
  blockIndex : Nat
  tx : Jx
  operation : Jx
  success : Bool
  failReason : Option String
  createdAt : Nat
  batchId : Option Int
  fromAccount : Nat
  toAccount : Nat
deriving Repr

/-- Row of `executed_priority_operations`. -/
structure ExecutedPriorityOp where
  txHash : Nat
  ethHash : Nat
  blockNumber : Nat
  blockIndex : Nat
  priorityOpSerialid : Nat
  ethBlock : Nat
  operation : Jx
  createdAt : Nat
  fromAccount : Nat
  toAccount : Nat
deriving Repr

/-- `zksync_types::aggregated_operations::AggregatedActionType` (the two kinds
used by this file). -/
inductive AggregatedActionType where
  | CommitBlocks : AggregatedActionType
  | ExecuteBlocks : AggregatedActionType
deriving Repr, DecidableEq

/-- Row of `aggregate_operations`: an L1 settlement record for an inclusive
block range, with its one-way `confirmed` flag and creation timestamp. -/
structure AggOp where
  action : AggregatedActionType
  fromBlock : Nat
  toBlock : Nat
  confirmed : Bool
  createdAt : Nat
deriving Repr

/-- Row of `tx_filters` — the (address, token, tx_hash) filter-index triple;
the table's primary key is the whole triple. -/
structure TxFilter where
  address : Nat
  token : Int
  txHash : Nat
deriving Repr, DecidableEq

/-- Row of `txs_batches_hashes`, mapping an internal batch id to the batch's
external hash. -/
structure BatchHashRow where
  batchId : Int
  batchHash : Nat
deriving Repr

/-- Token metadata row (`tokens_schema().load_tokens()`): id with symbol. -/
structure Token where
  id : Nat
  symbol : String
deriving Repr

/-- Contents of the backing store visible to `OperationsExtSchema`.
`lastVerifiedConfirmedBlock` is the block-finality watermark returned by
`block_schema().get_last_verified_confirmed_block()`. -/
structure ChainState where
  executedTxs : List ExecutedTx
  executedPriorityOps : List ExecutedPriorityOp
  aggregateOps : List AggOp
  txFilters : List TxFilter
  txsBatchesHashes : List BatchHashRow
  tokens : List Token
  lastVerifiedConfirmedBlock : Nat
deriving Repr

/-! ### Collaborators that live outside `src/` -/

/-- Modelled from the spec: `OperationsSchema::get_executed_operation` (the
`operations` schema is not under `src/`) — point lookup of an executed
ordinary transaction by hash (§6 "ordinary-transaction store … point lookup
by hash"). -/
def get_executed_operation (st : ChainState) (hash : Nat) : Option ExecutedTx :=
  st.executedTxs.find? fun t => decide (t.txHash = hash)

/-- Modelled from the spec: `OperationsSchema::get_executed_priority_operation`
(not under `src/`) — point lookup of an executed priority operation by its L1
serial id. -/
def get_executed_priority_operation (st : ChainState) (opId : Nat) :
    Option ExecutedPriorityOp :=
  st.executedPriorityOps.find? fun p => decide (p.priorityOpSerialid = opId)

/-- Modelled from the spec:
`OperationsSchema::get_executed_priority_operation_by_eth_hash` (not under
`src/`) — point lookup of an executed priority operation by its L1 hash. -/
def get_executed_priority_operation_by_eth_hash (st : ChainState) (hash : Nat) :
    Option ExecutedPriorityOp :=
  st.executedPriorityOps.find? fun p => decide (p.ethHash = hash)

/-- Whether `op` is a confirmed aggregated operation of kind `action` whose
inclusive block range covers `blockNumber`. -/
def coversConfirmed (op : AggOp) (action : AggregatedActionType)
    (blockNumber : Nat) : Prop :=
  op.action = action ∧ op.confirmed = true ∧
    op.fromBlock ≤ blockNumber ∧ blockNumber ≤ op.toBlock

instance (op : AggOp) (action : AggregatedActionType) (blockNumber : Nat) :
    Decidable (coversConfirmed op action blockNumber) := by
  unfold coversConfirmed; infer_instance

/-- Modelled from the spec: `OperationsSchema::get_stored_aggregated_operation`
(not under `src/`). Per §4.3 and §6 the aggregated-operation confirmation
store resolves a block number and action kind to the latest confirmed
aggregated operation of that kind whose range covers the block, if any. -/
def get_stored_aggregated_operation (st : ChainState) (blockNumber : Nat)
    (action : AggregatedActionType) : Option AggOp :=
  (st.aggregateOps.filter fun op => decide (coversConfirmed op action blockNumber)).getLast?

/-- Modelled from the spec: token metadata store `load_tokens` id→symbol lookup
(§6 "token metadata store (id→symbol lookup)"). -/
def lookupTokenSymbol (tokens : List Token) (id : Nat) : Option String :=
  (tokens.find? fun t => decide (t.id = id)).map fun t => t.symbol

/-- Modelled from the spec: `zksync_crypto::params::MIN_NFT_TOKEN_ID` (not under
`src/`) — the NFT threshold, "the numeric token-id boundary separating fungible
tokens (mapped to symbols) from non-fungible tokens (kept as raw ids)". -/
def MIN_NFT_TOKEN_ID : Nat := 65536

/-! ### Receipts -/

/-- `TxReceiptResponse` (the hex encoding of the hash is left as the raw id). -/
structure TxReceiptResponse where
  txHash : Nat
  blockNumber : Nat
  success : Bool
  verified : Bool
  failReason : Option String
  proverRun : Option Unit
deriving Repr

/-- `OperationsExtSchema::tx_receipt` (mod.rs lines 58–89): look the hash up
among executed transactions; `verified` is the `confirmed` flag of the stored
aggregated `ExecuteBlocks` operation covering the transaction's block,
defaulting to `false`. -/
def tx_receipt (st : ChainState) (hash : Nat) : Option TxReceiptResponse :=
  match get_executed_operation st hash with
  | some tx =>
    let verified :=
      ((get_stored_aggregated_operation st tx.blockNumber .ExecuteBlocks).map
        fun op => op.confirmed).getD false
    some { txHash := hash, blockNumber := tx.blockNumber, success := tx.success,
           verified := verified, failReason := tx.failReason, proverRun := none }
  | none => none

/-- `PriorityOpReceiptResponse`. -/
structure PriorityOpReceiptResponse where
  committed : Bool
  verified : Bool
  proverRun : Option Unit
deriving Repr, DecidableEq

/-- `OperationsExtSchema::get_priority_op_receipt` (mod.rs lines 297–335). -/
def get_priority_op_receipt (st : ChainState) (opId : Nat) :
    PriorityOpReceiptResponse :=
  match get_executed_priority_operation st opId with
  | some op =>
    let verified :=
      ((get_stored_aggregated_operation st op.blockNumber .ExecuteBlocks).map
        fun o => o.confirmed).getD false
    { committed := true, verified := verified, proverRun := none }
  | none => { committed := false, verified := false, proverRun := none }

/-! ### Point lookup by hash (`get_tx_by_hash` family) -/

/-- Truncating cast `as i32` on an `i64` value (two's complement wrap). -/
def wrapI32 (n : Int) : Int := (n + 2147483648) % 4294967296 - 2147483648

/-- Truncating cast `as i64` on a `u64` value (two's complement wrap). -/
def u64ToI64 (n : Nat) : Int :=
  if n < 9223372036854775808 then (n : Int) else (n : Int) - 18446744073709551616

/-- Truncating cast `as i32` on a `u64` value (two's complement wrap). -/
def u64ToI32 (n : Nat) : Int := wrapI32 n

/-- `TxByHashResponse` (`created_at` is kept as the raw timestamp; the source
formats it to a string for presentation). -/
structure TxByHashResponse where
  txType : String
  fromAddr : String
  toAddr : String
  token : Int
  amount : String
  fee : Option String
  blockNumber : Nat
  nonce : Int
  createdAt : Nat
  failReason : Option String
  tx : Jx
  batchId : Option Int
deriving Repr

/-- `OperationsExtSchema::find_tx_by_hash` (mod.rs lines 354–484): field probing
over the payload with the documented sentinel fallbacks; every access uses
`unwrap_or`, so this lookup has no failure point. -/
def find_tx_by_hash (st : ChainState) (hash : Nat) : Option TxByHashResponse :=
  match get_executed_operation st hash with
  | none => none
  | some tx =>
    let operation := tx.tx
    let txType := (operation.get "type").asStr.getD "unknown tx_type"
    let nonce := (operation.get "nonce").asI64.getD (-1)
    let parts : String × String × Option String × String × Int :=
      if txType = "Withdraw" ∨ txType = "Transfer" ∨ txType = "TransferToNew" then
        ((operation.get "from").asStr.getD "unknown from",
         (operation.get "to").asStr.getD "unknown to",
         (operation.get "fee").asStr,
         (operation.get "amount").asStr.getD "unknown amount",
         (operation.get "token").asI64.getD (-1))
      else if txType = "ChangePubKey" ∨ txType = "ChangePubKeyOffchain" then
        ((operation.get "account").asStr.getD "unknown from",
         (operation.get "newPkHash").asStr.getD "unknown to",
         (operation.get "fee").asStr,
         "unknown amount",
         (operation.get "feeToken").asI64.getD (-1))
      else if txType = "MintNFT" then
        ((operation.get "creatorAddress").asStr.getD "unknown from",
         (operation.get "recipient").asStr.getD "unknown to",
         (operation.get "fee").asStr,
         "1",
         (operation.get "feeToken").asI64.getD (-1))
      else if txType = "WithdrawNFT" then
        ((operation.get "from").asStr.getD "unknown from",
         (operation.get "to").asStr.getD "unknown to",
         (operation.get "fee").asStr,
         "1",
         (operation.get "token").asI64.getD (-1))
      else if txType = "ForcedExit" then
        ((operation.get "target").asStr.getD "unknown from",
         (operation.get "target").asStr.getD "unknown to",
         (operation.get "fee").asStr,
         (tx.operation.get "withdraw_amount").asStr.getD "unknown amount",
         (operation.get "token").asI64.getD (-1))
      else if txType = "Swap" then
        ((operation.get "submitterAddress").asStr.getD "unknown from",
         (operation.get "submitterAddress").asStr.getD "unknown to",
         (operation.get "fee").asStr,
         "0",
         (operation.get "feeToken").asI64.getD (-1))
      else
        ("unknown from", "unknown to", some "unknown fee", "unknown amount",
         (operation.get "token").asI64.getD (-1))
    let (txFrom, txTo, txFee, txAmount, txToken) := parts
    let txTypeUser := if txType = "TransferToNew" then "Transfer" else txType
    some { txType := txTypeUser, fromAddr := txFrom, toAddr := txTo,
           token := wrapI32 txToken, amount := txAmount, fee := txFee,
           blockNumber := tx.blockNumber, nonce := nonce,
           createdAt := tx.createdAt, failReason := tx.failReason,
           tx := tx.tx, batchId := tx.batchId }

/-- `OperationsExtSchema::find_priority_op_by_hash` (mod.rs lines 488–568). The
source reads the embedded token id with `.expect("must be here")`, which panics
when the field is missing or not an integer; the panic is modelled as
`Except.error "must be here"`. -/
def find_priority_op_by_hash (st : ChainState) (hash : Nat) :
    Except String (Option TxByHashResponse) :=
  match get_executed_priority_operation_by_eth_hash st hash with
  | none => .ok none
  | some tx =>
    let operation := tx.operation
    let txType := (operation.get "type").asStr.getD "unknown type"
    match ((operation.get "priority_op").get "token").asI64 with
    | none => .error "must be here"
    | some txToken =>
      let parts : String × String × Option String × String :=
        if txType = "Deposit" then
          (((operation.get "priority_op").get "from").asStr.getD "unknown from",
           ((operation.get "priority_op").get "to").asStr.getD "unknown to",
           none,
           ((operation.get "priority_op").get "amount").asStr.getD "unknown amount")
        else if txType = "FullExit" then
          (((operation.get "priority_op").get "eth_address").asStr.getD "unknown from",
           ((operation.get "priority_op").get "eth_address").asStr.getD "unknown to",
           none,
           (operation.get "withdraw_amount").asStr.getD "unknown amount")
        else
          ("unknown from", "unknown to", some "unknown fee", "unknown amount")
      let (txFrom, txTo, txFee, txAmount) := parts
      .ok (some { txType := txType, fromAddr := txFrom, toAddr := txTo,
                  token := wrapI32 txToken, amount := txAmount, fee := txFee,
                  blockNumber := tx.blockNumber, nonce := -1,
                  createdAt := tx.createdAt, failReason := none,
                  tx := operation, batchId := none })

/-- `OperationsExtSchema::get_tx_by_hash` (mod.rs lines 337–350): ordinary
transactions first, then the priority-operation lookup. -/
def get_tx_by_hash (st : ChainState) (hash : Nat) :
    Except String (Option TxByHashResponse) :=
  match find_tx_by_hash st hash with
  | some r => .ok (some r)
  | none => find_priority_op_by_hash st hash

/-! ### Token-symbol enrichment of history pages -/

/-- Token-symbol substitution for a numeric token id: symbol when below the NFT
threshold and known, the literal "UNKNOWN" when below but unknown, the raw
number when at/above the threshold. -/
def rewriteTokenValue (tokens : List Token) (tokenId : Nat) : Jx :=
  if tokenId < MIN_NFT_TOKEN_ID then
    .str ((lookupTokenSymbol tokens tokenId).getD "UNKNOWN")
  else
    .num (tokenId : Int)

/-- The `get_mut("token")` / `as_u64` pattern: rewrite the `token` field when it
exists and holds a `u64` number, else leave the value untouched. -/
def enrichTokenField (tokens : List Token) (j : Jx) : Jx :=
  match j.getField? "token" with
  | none => j
  | some v =>
    match v.asU64 with
    | none => j
    | some tokenId => j.setExisting "token" (rewriteTokenValue tokens tokenId)

/-- One iteration of the history-enrichment loop (identical in
`get_account_transactions_history` lines 720–756 and
`get_account_transactions_history_from` lines 904–940): a missing/non-string
kind tag (`unwrap_or("NONE")`) or a Deposit/FullExit payload without a
`priority_op` sub-object is skipped with a warning; Deposit/FullExit rewrite
the nested token field, every other kind the top-level one. -/
def enrichHistoryTx (tokens : List Token) (tx : Jx) : Jx :=
  let tag := (tx.get "type").asStr.getD "NONE"
  if tag = "NONE" then tx
  else if tag = "Deposit" ∨ tag = "FullExit" then
    match tx.getField? "priority_op" with
    | none => tx
    | some sub => tx.setExisting "priority_op" (enrichTokenField tokens sub)
  else enrichTokenField tokens tx

/-! ### Ordering relations used by the queries -/

/-- Lexicographic `≤` on `Nat` pairs (the shape of every ORDER BY key in this
file: a major column and a minor column). -/
def pairLe (a b : Nat × Nat) : Prop := a.1 < b.1 ∨ (a.1 = b.1 ∧ a.2 ≤ b.2)

instance : DecidableRel pairLe := fun a b =>
  decidable_of_iff (a.1 < b.1 ∨ (a.1 = b.1 ∧ a.2 ≤ b.2)) Iff.rfl

/-- `ORDER BY key(a) ASC` as a sorting relation. -/
def byKeyAsc (key : α → Nat × Nat) (a b : α) : Prop := pairLe (key a) (key b)

/-- `ORDER BY key(a) DESC` as a sorting relation. -/
def byKeyDesc (key : α → Nat × Nat) (a b : α) : Prop := pairLe (key b) (key a)

instance (key : α → Nat × Nat) : DecidableRel (byKeyAsc key) := fun a b =>
  inferInstanceAs (Decidable (pairLe (key a) (key b)))

instance (key : α → Nat × Nat) : DecidableRel (byKeyDesc key) := fun a b =>
  inferInstanceAs (Decidable (pairLe (key b) (key a)))

instance (key : α → Nat × Nat) : IsTotal α (byKeyAsc key) :=
  ⟨fun a b => by unfold byKeyAsc pairLe; omega⟩

instance (key : α → Nat × Nat) : IsTotal α (byKeyDesc key) :=
  ⟨fun a b => by unfold byKeyDesc pairLe; omega⟩

instance (key : α → Nat × Nat) : IsTrans α (byKeyAsc key) :=
  ⟨fun a b c h1 h2 => by
    unfold byKeyAsc pairLe at h1 h2 ⊢; omega⟩

instance (key : α → Nat × Nat) : IsTrans α (byKeyDesc key) :=
  ⟨fun a b c h1 h2 => by
    unfold byKeyDesc pairLe at h1 h2 ⊢; omega⟩

/-! ### Account history (offset and cursor variants) -/

/-- `SearchDirection` (mod.rs lines 42–48). -/
inductive SearchDirection where
  | Older : SearchDirection
  | Newer : SearchDirection
deriving Repr, DecidableEq

/-- One row of the inner `transactions` CTE shared by the two history queries,
before the outer projection. `txId` is the (block_number, block_index) pair
the source renders as `concat_ws(',', block_number, block_index)`; `hash`
keeps the raw id of the hash the source hex-encodes. -/
structure HistRow where
  txId : Nat × Nat
  hash : Option Nat
  ethBlock : Option Nat
  pqId : Option Nat
  tx : Jx
  success : Option Bool
  failReason : Option String
  blockNumber : Nat
  createdAt : Nat
  batchId : Option Int
deriving Repr

/-- Projection of an ordinary executed transaction onto the unified layout. -/
def historyTxRow (t : ExecutedTx) : HistRow :=
  { txId := (t.blockNumber, t.blockIndex), hash := some t.txHash,
    ethBlock := none, pqId := none, tx := t.tx, success := some t.success,
    failReason := t.failReason, blockNumber := t.blockNumber,
    createdAt := t.createdAt, batchId := t.batchId }

/-- Projection of a priority operation onto the unified layout (`operation as
tx`, `eth_hash` as the displayed hash, `true as success`). -/
def historyPriorityRow (p : ExecutedPriorityOp) : HistRow :=
  { txId := (p.blockNumber, p.blockIndex), hash := some p.ethHash,
    ethBlock := some p.ethBlock, pqId := some p.priorityOpSerialid,
    tx := p.operation, success := some true, failReason := none,
    blockNumber := p.blockNumber, createdAt := p.createdAt, batchId := none }

/-- The union of the two partitions restricted to the requesting address: the
`tx_hashes` CTE (distinct filter-index hashes of the address) joined against
`executed_transactions`, plus priority operations with the address as sender
or receiver. -/
def history_candidates (st : ChainState) (addr : Nat) : List HistRow :=
  (st.executedTxs.filter fun t =>
      st.txFilters.any fun f =>
        decide (f.address = addr) && decide (f.txHash = t.txHash)).map historyTxRow
    ++ (st.executedPriorityOps.filter fun p =>
        decide (p.fromAccount = addr) || decide (p.toAccount = addr)).map
      historyPriorityRow

/-- Sort key of both history ORDER BY clauses:
`block_number desc, created_at desc`. -/
def hKey (r : HistRow) : Nat × Nat := (r.blockNumber, r.createdAt)

/-- Whether some confirmed `ExecuteBlocks` aggregated operation covers `bn` —
the `aggr_exec` CTE joined through `execute_aggregated_blocks_binding` (the
binding table holds one row per block of each operation's range). -/
def execConfirmedAt (st : ChainState) (bn : Nat) : Bool :=
  st.aggregateOps.any fun op => decide (coversConfirmed op .ExecuteBlocks bn)

/-- `TransactionsHistoryItem`: the outer projection of the history queries,
with `true as "commited!"` and `coalesce(verified.confirmed, false)`. -/
structure TransactionsHistoryItem where
  txId : Nat × Nat
  hash : Option Nat
  ethBlock : Option Nat
  pqId : Option Nat
  tx : Jx
  success : Option Bool
  failReason : Option String
  commited : Bool
  verified : Bool
  createdAt : Nat
  batchId : Option Int
deriving Repr

/-- The outer SELECT of both history queries applied to one inner row. -/
def projectHistRow (st : ChainState) (r : HistRow) : TransactionsHistoryItem :=
  { txId := r.txId, hash := r.hash, ethBlock := r.ethBlock, pqId := r.pqId,
    tx := r.tx, success := r.success, failReason := r.failReason,
    commited := true, verified := execConfirmedAt st r.blockNumber,
    createdAt := r.createdAt, batchId := r.batchId }

/-- Sort key of the final ORDER BY over projected items:
`transactions.block_number desc, created_at desc` (the block number is the
major component of `txId`). -/
def itemKey (it : TransactionsHistoryItem) : Nat × Nat := (it.txId.1, it.createdAt)

/-- `OperationsExtSchema::get_account_transactions_history` (mod.rs lines
624–764): offset-paged descending union of the two partitions, followed by the
token-symbol enrichment loop. -/
def get_account_transactions_history (st : ChainState) (addr : Nat)
    (offset limit : Nat) : List TransactionsHistoryItem :=
  let inner :=
    ((((history_candidates st addr).insertionSort (byKeyDesc hKey)).drop offset).take
      limit).map (projectHistRow st)
  (inner.insertionSort (byKeyDesc itemKey)).map fun it =>
    { it with tx := enrichHistoryTx st.tokens it.tx }

/-- The cursor window of `get_account_transactions_history_from` (mod.rs lines
788–796 together with the query's `BETWEEN` conditions): for `Older`, blocks in
`[0, block_id − 1]` plus positions `[0, block_tx_id − 1]` inside block
`block_id`; for `Newer`, blocks in `[block_id + 1, i64::MAX]` plus positions
`[block_tx_id + 1, i32::MAX]` inside the cursor block. The cursor components
undergo the source's `as i64` / `as i32` truncating casts. -/
def cursorWindow (direction : SearchDirection) (txId : Nat × Nat)
    (bn bi : Nat) : Prop :=
  let blockStart : Int :=
    match direction with | .Older => 0 | .Newer => u64ToI64 txId.1 + 1
  let blockEnd : Int :=
    match direction with | .Older => u64ToI64 txId.1 - 1 | .Newer => 9223372036854775807
  let txStart : Int :=
    match direction with | .Older => 0 | .Newer => u64ToI32 txId.2 + 1
  let txEnd : Int :=
    match direction with | .Older => u64ToI32 txId.2 - 1 | .Newer => 2147483647
  (blockStart ≤ (bn : Int) ∧ (bn : Int) ≤ blockEnd) ∨
    ((bn : Int) = u64ToI64 txId.1 ∧ txStart ≤ (bi : Int) ∧ (bi : Int) ≤ txEnd)

instance (direction : SearchDirection) (txId : Nat × Nat) (bn bi : Nat) :
    Decidable (cursorWindow direction txId bn bi) := by
  unfold cursorWindow; infer_instance

/-- `OperationsExtSchema::get_account_transactions_history_from` (mod.rs lines
775–948): candidates restricted to the cursor window, ordered by
`block_number desc, created_at desc`, truncated to `limit`, projected,
reordered by the same key, then token-enriched. -/
def get_account_transactions_history_from (st : ChainState) (addr : Nat)
    (txId : Nat × Nat) (direction : SearchDirection) (limit : Nat) :
    List TransactionsHistoryItem :=
  let windowed := (history_candidates st addr).filter fun r =>
    decide (cursorWindow direction txId r.txId.1 r.txId.2)
  let inner := ((windowed.insertionSort (byKeyDesc hKey)).take limit).map
    (projectHistRow st)
  (inner.insertionSort (byKeyDesc itemKey)).map fun it =>
    { it with tx := enrichHistoryTx st.tokens it.tx }

/-! ### Batch status (`get_in_block_batch_info`) -/

/-- Row shape of the batch-member query (`InBlockBatchTx` plus the
`block_index` the ORDER BY uses). -/
structure InBlockBatchTx where
  txHash : Nat
  createdAt : Nat
  success : Bool
  blockNumber : Nat
  blockIndex : Nat
deriving Repr, DecidableEq

/-- ORDER BY key of the batch-member query: `created_at ASC, block_index ASC`. -/
def batchMemberKey (t : InBlockBatchTx) : Nat × Nat := (t.createdAt, t.blockIndex)

/-- The member rows of `get_in_block_batch_info` (mod.rs lines 1406–1419):
executed transactions joined to `txs_batches_hashes` on
`batch_id = COALESCE(executed_transactions.batch_id, 0)` and the requested
batch hash, ordered ascending by (created_at, block_index). -/
def batchMembers (st : ChainState) (batchHash : Nat) : List InBlockBatchTx :=
  ((st.executedTxs.filter fun t =>
      st.txsBatchesHashes.any fun b =>
        decide (b.batchHash = batchHash) &&
          decide (b.batchId = t.batchId.getD 0)).map fun t =>
    { txHash := t.txHash, createdAt := t.createdAt, success := t.success,
      blockNumber := t.blockNumber,
      blockIndex := t.blockIndex }).insertionSort (byKeyAsc batchMemberKey)

/-- `zksync_api_types` `TxInBlockStatus`. -/
inductive TxInBlockStatus where
  | Queued : TxInBlockStatus
  | Committed : TxInBlockStatus
  | Finalized : TxInBlockStatus
  | Rejected : TxInBlockStatus
deriving Repr, DecidableEq

/-- `BatchStatus`: aggregate state plus its `updated_at` timestamp. -/
structure BatchStatus where
  updatedAt : Nat
  lastState : TxInBlockStatus
deriving Repr, DecidableEq

/-- `ApiTxBatch`. -/
structure ApiTxBatch where
  batchHash : Nat
  transactionHashes : List Nat
  createdAt : Nat
  batchStatus : BatchStatus
deriving Repr, DecidableEq

/-- `OperationsExtSchema::get_in_block_batch_info` (mod.rs lines 1399–1466):
the status test reads `batch_data[0].success` — the success flag of the first
member in (created_at, block_index) order — and, when that member succeeded,
asks the aggregated-operation store about the member's block. -/
def get_in_block_batch_info (st : ChainState) (batchHash : Nat) :
    Option ApiTxBatch :=
  let batchData := batchMembers st batchHash
  match batchData with
  | [] => none
  | first :: _ =>
    let batchStatus : BatchStatus :=
      if first.success then
        match get_stored_aggregated_operation st first.blockNumber
            .ExecuteBlocks with
        | some op => { updatedAt := op.createdAt, lastState := .Finalized }
        | none => { updatedAt := first.createdAt, lastState := .Committed }
      else { updatedAt := first.createdAt, lastState := .Rejected }
    some { batchHash := batchHash,
           transactionHashes := batchData.map fun t => t.txHash,
           createdAt := first.createdAt, batchStatus := batchStatus }

/-! ### Paged account transactions (`get_account_transactions`) -/

/-- `PaginationDirection` of the v0.2 API. -/
inductive PaginationDirection where
  | Newer : PaginationDirection
  | Older : PaginationDirection
deriving Repr, DecidableEq

/-- `TransactionItem` rows returned by the per-partition page queries. -/
structure TransactionItem where
  txHash : Nat
  op : Jx
  blockNumber : Nat
  createdAt : Nat
  success : Bool
  failReason : Option String
  ethHash : Option Nat
  priorityOpSerialid : Option Nat
  blockIndex : Nat
  batchId : Option Int
deriving Repr

/-- Modelled from the spec: the API `Transaction` produced by
`TransactionItem::transaction_from_item` (`conversion.rs`, not under `src/`) —
the item's data together with its derived finality flag. -/
structure Transaction where
  item : TransactionItem
  isFinalized : Bool
deriving Repr

/-- Modelled from the spec: `transaction_from_item` (conversion module not
under `src/`); the caller passes `true` exactly when the item's block is at or
below the finality watermark (mod.rs lines 1031–1040). -/
def transaction_from_item (lastFinalized : Nat) (t : TransactionItem) :
    Transaction :=
  { item := t, isFinalized := t.blockNumber ≤ lastFinalized }

/-- `OperationsExtSchema::get_tx_created_at_and_block_number` (mod.rs lines
1362–1397): executed transactions first, then priority operations, both by
`tx_hash`. -/
def get_tx_created_at_and_block_number (st : ChainState) (txHash : Nat) :
    Option (Nat × Nat) :=
  match st.executedTxs.find? fun t => decide (t.txHash = txHash) with
  | some t => some (t.createdAt, t.blockNumber)
  | none =>
    (st.executedPriorityOps.find? fun p => decide (p.txHash = txHash)).map
      fun p => (p.createdAt, p.blockNumber)

/-- `OperationsExtSchema::get_account_last_tx_hash` (mod.rs lines 1232–1280):
the hash of the (created_at, block_index)-greatest entry among both partitions
restricted to the address's filter-index hashes. -/
def get_account_last_tx_hash (st : ChainState) (addr : Nat) : Option Nat :=
  let execCands := (st.executedTxs.filter fun t =>
      st.txFilters.any fun f =>
        decide (f.address = addr) && decide (f.txHash = t.txHash)).map
    fun t => (t.txHash, t.createdAt, t.blockIndex)
  let prioCands := (st.executedPriorityOps.filter fun p =>
      st.txFilters.any fun f =>
        decide (f.address = addr) && decide (f.txHash = p.txHash)).map
    fun p => (p.txHash, p.createdAt, p.blockIndex)
  (((execCands ++ prioCands).insertionSort
      (byKeyDesc fun c => (c.2.1, c.2.2))).head?).map fun c => c.1

/-- Membership of `hash` in the filter index under `addr`, optionally
restricted to one token (the `WHERE address = $1 AND token = $2` fragment; the
token id undergoes the source's `as i32` cast). -/
def txMatchesFilterToken (st : ChainState) (addr : Nat) (token : Option Nat)
    (hash : Nat) : Bool :=
  st.txFilters.any fun f =>
    decide (f.address = addr) && decide (f.txHash = hash) &&
      match token with
      | some tok => decide (f.token = u64ToI32 tok)
      | none => true

/-- The `created_at` bound of the per-partition page queries:
`created_at >= $3` for `Newer`, `created_at <= $3` for `Older`. -/
def timeMatches (dir : PaginationDirection) (timeFrom ca : Nat) : Bool :=
  match dir with
  | .Newer => decide (timeFrom ≤ ca)
  | .Older => decide (ca ≤ timeFrom)

/-- Direction-dependent `created_at` ordering of the page queries and of the
in-memory merge (`sorted_by` in mod.rs lines 1017–1023). -/
def paginSort (dir : PaginationDirection) (l : List TransactionItem) :
    List TransactionItem :=
  match dir with
  | .Newer => l.insertionSort (byKeyAsc fun t => (t.createdAt, 0))
  | .Older => l.insertionSort (byKeyDesc fun t => (t.createdAt, 0))

/-- Row projection of an executed transaction for the page queries. -/
def itemRowOfTx (t : ExecutedTx) : TransactionItem :=
  { txHash := t.txHash, op := t.tx, blockNumber := t.blockNumber,
    createdAt := t.createdAt, success := t.success,
    failReason := t.failReason, ethHash := none, priorityOpSerialid := none,
    blockIndex := t.blockIndex, batchId := t.batchId }

/-- Row projection of a priority operation for the page queries. -/
def itemRowOfPrio (p : ExecutedPriorityOp) : TransactionItem :=
  { txHash := p.txHash, op := p.operation, blockNumber := p.blockNumber,
    createdAt := p.createdAt, success := true, failReason := none,
    ethHash := some p.ethHash, priorityOpSerialid := some p.priorityOpSerialid,
    blockIndex := p.blockIndex, batchId := none }

/-- `OperationsExtSchema::get_executed_txs_for_account` (mod.rs lines
1175–1230). -/
def get_executed_txs_for_account (st : ChainState) (addr : Nat)
    (token : Option Nat) (limit : Nat) (timeFrom : Nat)
    (dir : PaginationDirection) : List TransactionItem :=
  (paginSort dir ((st.executedTxs.filter fun t =>
      txMatchesFilterToken st addr token t.txHash &&
        timeMatches dir timeFrom t.createdAt).map itemRowOfTx)).take limit

/-- `OperationsExtSchema::get_priority_operations_for_account` (mod.rs lines
1119–1173). -/
def get_priority_operations_for_account (st : ChainState) (addr : Nat)
    (token : Option Nat) (limit : Nat) (timeFrom : Nat)
    (dir : PaginationDirection) : List TransactionItem :=
  (paginSort dir ((st.executedPriorityOps.filter fun p =>
      txMatchesFilterToken st addr token p.txHash &&
        timeMatches dir timeFrom p.createdAt).map itemRowOfPrio)).take limit

/-- The direction fragment interpolated into the two-account query (mod.rs
lines 1063–1074). -/
def twoAccountDirFragment : PaginationDirection → String
  | .Newer => "WHERE created_at >= $4
                ORDER BY created_at
                LIMIT $5"
  | .Older => "WHERE created_at <= $4
                ORDER BY created_at DESC
                LIMIT $5"

/-- The token fragment interpolated into the two-account query (mod.rs lines
1076–1080). -/
def twoAccountTokenFragment (tokenPresent : Bool) : String :=
  if tokenPresent then "AND token = $3" else ""

/-- The SQL text built by `get_executed_transactions_for_two_accounts` (mod.rs
lines 1082–1108), the `format!` template with its three fragments
interpolated. The main statement after the `tx_hashes` CTE begins with the
token `SECECT` (sic — mod.rs line 1091), and its FROM clause joins
`executed_priority_operations` while the select list references
`executed_transactions.tx_hash`. -/
def twoAccountQueryText (tokenPresent : Bool) (dir : PaginationDirection) :
    String :=
  "
                WITH tx_hashes AS (
                    SELECT DISTINCT tx_hash FROM tx_filters
                    WHERE address = $1 " ++ twoAccountTokenFragment tokenPresent ++ "
                    INTERSECT
                    SELECT DISTINCT tx_hash FROM tx_filters
                    WHERE address = $2 " ++ twoAccountTokenFragment tokenPresent ++ "
                )
                SECECT
                    executed_transactions.tx_hash,
                    tx as op,
                    block_number,
                    created_at,
                    success,
                    fail_reason,
                    Null::bytea as eth_hash,
                    Null::bigint as priority_op_serialid,
                    block_index,
                    batch_id
                FROM tx_hashes INNER JOIN executed_priority_operations
                    ON tx_hashes.tx_hash = executed_priority_operations.tx_hash
                " ++ twoAccountDirFragment dir ++ "

            "

/-- `OperationsExtSchema::get_executed_transactions_for_two_accounts` (mod.rs
lines 1054–1118). The function builds `twoAccountQueryText` and has the store
execute it; since that statement is not well-formed SQL (its main clause reads
`SECECT`, and it references `executed_transactions.tx_hash` although only
`tx_hashes` and `executed_priority_operations` are in its FROM clause), the
store rejects it and the call fails for every input. -/
def get_executed_transactions_for_two_accounts (_st : ChainState)
    (_address _secondAddress : Nat) (token : Option Nat)
    (_limit _timeFrom : Nat) (direction : PaginationDirection) :
    Except String (List TransactionItem) :=
  .error ("syntax error at or near SECECT in: " ++
    twoAccountQueryText token.isSome direction)

/-- `AccountTxsRequest`: `address`, a cursor that is either a concrete tx hash
(`Either::Left`) or "latest" (`Either::Right`), an optional second address and
an optional token filter. -/
structure AccountTxsRequest where
  address : Nat
  txHash : Sum Nat Unit
  secondAddress : Option Nat
  token : Option Nat
deriving Repr

/-- `PaginationQuery<AccountTxsRequest>`. -/
structure PaginationQuery where
  fromReq : AccountTxsRequest
  limit : Nat
  direction : PaginationDirection
deriving Repr

/-- `OperationsExtSchema::get_account_transactions` (mod.rs lines 950–1052):
resolve the cursor to a hash (an absent last-hash yields `Ok(Some([]))`),
resolve the hash to its `created_at` (an unknown hash yields `Ok(None)`), then
either the two-account query or the 2-way merge of the per-partition pages,
each entry annotated with the finality watermark. -/
def get_account_transactions (st : ChainState) (q : PaginationQuery) :
    Except String (Option (List Transaction)) :=
  let go : Nat → Except String (Option (List Transaction)) := fun txHash =>
    match get_tx_created_at_and_block_number st txHash with
    | none => .ok none
    | some (timeFrom, _) =>
      let rawTxs : Except String (List TransactionItem) :=
        match q.fromReq.secondAddress with
        | some second =>
          get_executed_transactions_for_two_accounts st q.fromReq.address
            second q.fromReq.token q.limit timeFrom q.direction
        | none =>
          let txs := get_executed_txs_for_account st q.fromReq.address
              q.fromReq.token q.limit timeFrom q.direction
            ++ get_priority_operations_for_account st q.fromReq.address
              q.fromReq.token q.limit timeFrom q.direction
          .ok ((paginSort q.direction txs).take q.limit)
      rawTxs.map fun raw =>
        some (raw.map (transaction_from_item st.lastVerifiedConfirmedBlock))
  match q.fromReq.txHash with
  | .inl h => go h
  | .inr _ =>
    match get_account_last_tx_hash st q.fromReq.address with
    | some h => go h
    | none => .ok (some [])

/-! ### Filter-index writes -/

/-- Insert one triple, skipping it when it is already present — the effect of
`ON CONFLICT ON CONSTRAINT tx_filters_pkey DO NOTHING` under the table's
primary key on the whole triple. -/
def insertFilter (idx : List TxFilter) (f : TxFilter) : List TxFilter :=
  if f ∈ idx then idx else idx ++ [f]

/-- The row set produced by `UNNEST($1::bytea[], $2::integer[], $3::bytea[])`:
the three arrays zipped positionally into (address, token, tx_hash) triples. -/
def zipTriples (addresses : List Nat) (tokens : List Int) (hashes : List Nat) :
    List TxFilter :=
  (addresses.zip (tokens.zip hashes)).map fun p => ⟨p.1, p.2.1, p.2.2⟩

/-- `OperationsExtSchema::save_executed_tx_filters` (mod.rs lines 1751–1772):
insert every zipped triple, each insert a no-op on a primary-key conflict. -/
def save_executed_tx_filters (addresses : List Nat) (tokens : List Int)
    (hashes : List Nat) (idx : List TxFilter) : List TxFilter :=
  (zipTriples addresses tokens hashes).foldl insertFilter idx

/-! ### Auxiliary predicates and concrete stores used by the theorems -/

/-- Store holding one included batch (hash 99) whose three members share
block 5 and were created in order with successes [true, true, false]; no
aggregated operation exists. -/
def batchRejSt : ChainState :=
  { executedTxs := [
      ⟨1, 5, 0, .null, .null, true, none, 1, some 1, 0, 0⟩,
      ⟨2, 5, 1, .null, .null, true, none, 2, some 1, 0, 0⟩,
      ⟨3, 5, 2, .null, .null, false, some "op fail", 3, some 1, 0, 0⟩],
    executedPriorityOps := [], aggregateOps := [], txFilters := [],
    txsBatchesHashes := [⟨1, 99⟩], tokens := [],
    lastVerifiedConfirmedBlock := 0 }

/-- Store with one executed priority operation whose payload lacks the
`priority_op.token` field (a malformed payload). -/
def panicSt : ChainState :=
  { executedTxs := [],
    executedPriorityOps :=
      [⟨11, 5, 1, 0, 0, 3, .obj [("type", .str "Deposit")], 9, 0, 0⟩],
    aggregateOps := [], txFilters := [], txsBatchesHashes := [], tokens := [],
    lastVerifiedConfirmedBlock := 0 }

/-- Store with one priority operation carrying a well-formed payload. -/
def priorityOkSt : ChainState :=
  { executedTxs := [],
    executedPriorityOps :=
      [⟨11, 5, 1, 0, 0, 3,
        .obj [("type", .str "Deposit"),
              ("priority_op", .obj [("token", .num 5)])], 9, 0, 0⟩],
    aggregateOps := [], txFilters := [], txsBatchesHashes := [], tokens := [],
    lastVerifiedConfirmedBlock := 0 }

/-- Strict lexicographic order on (block_number, intra-block position) keys. -/
def keyLt (a b : Nat × Nat) : Prop := a.1 < b.1 ∨ (a.1 = b.1 ∧ a.2 < b.2)

/-- All stored rows fit their i64 block-number and i32 block-index columns
(9223372036854775807 = 2^63 − 1, 2147483647 = 2^31 − 1). -/
def stateRowBoundsOk (st : ChainState) : Prop :=
  (∀ t ∈ st.executedTxs,
    t.blockNumber ≤ 9223372036854775807 ∧ t.blockIndex ≤ 2147483647) ∧
  ∀ p ∈ st.executedPriorityOps,
    p.blockNumber ≤ 9223372036854775807 ∧ p.blockIndex ≤ 2147483647

instance (st : ChainState) : Decidable (stateRowBoundsOk st) := by
  unfold stateRowBoundsOk; infer_instance

/-- Store with two priority operations of account 7: block 1 (created at 10)
and block 2 (created at 20). -/
def cxSt : ChainState :=
  { executedTxs := [],
    executedPriorityOps := [⟨21, 31, 1, 0, 0, 3, .null, 10, 7, 7⟩,
                            ⟨22, 32, 2, 0, 1, 4, .null, 20, 7, 7⟩],
    aggregateOps := [], txFilters := [], txsBatchesHashes := [], tokens := [],
    lastVerifiedConfirmedBlock := 0 }

/-- Whether `pattern` is a prefix of the character list. -/
def leadsWith : List Char → List Char → Bool
  | [], _ => true
  | _ :: _, [] => false
  | p :: ps, c :: cs => p == c && leadsWith ps cs

/-- Whether `pattern` occurs as a contiguous run inside the character list. -/
def containsRun (pattern : List Char) : List Char → Bool
  | [] => pattern.isEmpty
  | c :: cs => leadsWith pattern (c :: cs) || containsRun pattern cs

/-- Store with one executed transaction (hash 3) so that a two-address page
request's cursor resolves and the two-account query is reached. -/
def c2St : ChainState :=
  { executedTxs := [⟨3, 1, 0, .null, .null, true, none, 5, none, 1, 2⟩],
    executedPriorityOps := [], aggregateOps := [], txFilters := [],
    txsBatchesHashes := [], tokens := [], lastVerifiedConfirmedBlock := 0 }

/-! ### Helper lemmas -/

theorem insertFilter_of_mem {idx : List TxFilter} {f : TxFilter} (h : f ∈ idx) :
    insertFilter idx f = idx := by
  unfold insertFilter
  simp [h]

theorem mem_insertFilter_of_mem {idx : List TxFilter} {f g : TxFilter}
    (h : f ∈ idx) : f ∈ insertFilter idx g := by
  unfold insertFilter
  split
  · exact h
  · simp [h]

theorem self_mem_insertFilter (idx : List TxFilter) (f : TxFilter) :
    f ∈ insertFilter idx f := by
  unfold insertFilter
  split
  · assumption
  · simp

theorem mem_foldl_insertFilter_of_mem {idx : List TxFilter} {f : TxFilter}
    (ts : List TxFilter) (h : f ∈ idx) : f ∈ ts.foldl insertFilter idx := by
  induction ts generalizing idx with
  | nil => exact h
  | cons t ts ih => exact ih (mem_insertFilter_of_mem h)

theorem mem_foldl_insertFilter_self {f : TxFilter} (ts : List TxFilter) :
    ∀ idx : List TxFilter, f ∈ ts → f ∈ ts.foldl insertFilter idx := by
  induction ts with
  | nil => intro idx h; cases h
  | cons t ts ih =>
    intro idx h
    rcases List.mem_cons.mp h with h1 | h1
    · subst h1
      exact mem_foldl_insertFilter_of_mem ts (self_mem_insertFilter idx f)
    · exact ih (insertFilter idx t) h1

theorem foldl_insertFilter_of_subset {ts idx : List TxFilter}
    (h : ∀ t ∈ ts, t ∈ idx) : ts.foldl insertFilter idx = idx := by
  induction ts with
  | nil => rfl
  | cons t ts ih =>
    have ht : t ∈ idx := h t (by simp)
    rw [List.foldl_cons, insertFilter_of_mem ht]
    exact ih fun x hx => h x (by simp [hx])

/-! ### C10 -/

/-- C10: for every serial id with no matching executed priority operation,
`get_priority_op_receipt` succeeds and returns `committed = false`,
`verified = false` — the same constant response whatever the reason for the
absence, so a never-submitted id and a not-yet-included one are
indistinguishable through this operation. -/
theorem C10_priority_receipt_unknown_id (st : ChainState) (opId : Nat)
    (h : get_executed_priority_operation st opId = none) :
    get_priority_op_receipt st opId =
      { committed := false, verified := false, proverRun := none } := by
  unfold get_priority_op_receipt
  rw [h]

/-- Witness for C10 at the empty store and serial id 5. -/
theorem C10_priority_receipt_unknown_id_witness :
    get_priority_op_receipt ⟨[], [], [], [], [], [], 0⟩ 5 =
      { committed := false, verified := false, proverRun := none } :=
  C10_priority_receipt_unknown_id ⟨[], [], [], [], [], [], 0⟩ 5 rfl

/-! ### C9 -/

/-- C9: filter-index insertion is idempotent — re-inserting a triple that is
already stored leaves the index unchanged, and saving the same collection of
triples twice yields the same index as saving it once. -/
theorem C9_filter_index_idempotent :
    (∀ (idx : List TxFilter) (f : TxFilter), f ∈ idx →
        save_executed_tx_filters [f.address] [f.token] [f.txHash] idx = idx) ∧
      ∀ (addresses : List Nat) (tokens : List Int) (hashes : List Nat)
          (idx : List TxFilter),
        save_executed_tx_filters addresses tokens hashes
            (save_executed_tx_filters addresses tokens hashes idx) =
          save_executed_tx_filters addresses tokens hashes idx := by
  constructor
  · intro idx f hf
    unfold save_executed_tx_filters zipTriples
    simp [insertFilter_of_mem hf]
  · intro addresses tokens hashes idx
    unfold save_executed_tx_filters
    exact foldl_insertFilter_of_subset fun t ht =>
      mem_foldl_insertFilter_self _ idx ht

/-- Witness for C9: a duplicate single-triple insert is a no-op, and a
two-triple batch saved twice equals it saved once. -/
theorem C9_filter_index_idempotent_witness :
    save_executed_tx_filters [1] [2] [3] [⟨1, 2, 3⟩] = [⟨1, 2, 3⟩] ∧
      save_executed_tx_filters [1, 4] [2, 5] [3, 6]
          (save_executed_tx_filters [1, 4] [2, 5] [3, 6] []) =
        save_executed_tx_filters [1, 4] [2, 5] [3, 6] [] :=
  ⟨C9_filter_index_idempotent.1 [⟨1, 2, 3⟩] ⟨1, 2, 3⟩ (by simp),
   C9_filter_index_idempotent.2 [1, 4] [2, 5] [3, 6] []⟩

/-! ### C5 -/

/-- C5: a page request whose cursor is given as a transaction hash that
matches no stored transaction and no priority operation returns the
successful empty/absent page `Except.ok none` — a success the result type
distinguishes from a store failure `Except.error`. -/
theorem C5_unknown_hash_empty_page (st : ChainState) (q : PaginationQuery)
    (h : Nat) (hq : q.fromReq.txHash = .inl h)
    (htx : st.executedTxs.find? (fun t => decide (t.txHash = h)) = none)
    (hpr : st.executedPriorityOps.find? (fun p => decide (p.txHash = h)) = none) :
    get_account_transactions st q = .ok none := by
  unfold get_account_transactions
  rw [hq]
  simp only [get_tx_created_at_and_block_number, htx, hpr, Option.map_none']

/-- Witness for C5: the empty store with an unknown cursor hash. -/
theorem C5_unknown_hash_empty_page_witness :
    get_account_transactions ⟨[], [], [], [], [], [], 0⟩
      ⟨⟨1, .inl 9, none, none⟩, 10, .Older⟩ = .ok none :=
  C5_unknown_hash_empty_page ⟨[], [], [], [], [], [], 0⟩
    ⟨⟨1, .inl 9, none, none⟩, 10, .Older⟩ 9 rfl rfl rfl

/-! ### C6 -/

theorem mem_of_getLast?_eq {α : Type u} {l : List α} {a : α}
    (h : l.getLast? = some a) : a ∈ l := by
  rcases List.mem_getLast?_eq_getLast (l := l) (x := a) h with ⟨hne, heq⟩
  subst heq
  exact List.getLast_mem hne

theorem get_stored_aggregated_operation_spec {st : ChainState} {bn : Nat}
    {act : AggregatedActionType} {op : AggOp}
    (h : get_stored_aggregated_operation st bn act = some op) :
    op ∈ st.aggregateOps ∧ coversConfirmed op act bn := by
  unfold get_stored_aggregated_operation at h
  have hmem := mem_of_getLast?_eq h
  rw [List.mem_filter] at hmem
  exact ⟨hmem.1, of_decide_eq_true hmem.2⟩

theorem get_stored_aggregated_operation_isSome (st : ChainState) (bn : Nat)
    (act : AggregatedActionType) :
    (get_stored_aggregated_operation st bn act).isSome = true ↔
      ∃ op ∈ st.aggregateOps, coversConfirmed op act bn := by
  unfold get_stored_aggregated_operation
  rw [Option.isSome_iff_ne_none, ne_eq, List.getLast?_eq_none_iff]
  constructor
  · intro hne
    rcases List.exists_mem_of_ne_nil _ hne with ⟨op, hop⟩
    rw [List.mem_filter] at hop
    exact ⟨op, hop.1, of_decide_eq_true hop.2⟩
  · rintro ⟨op, hmem, hcov⟩ hnil
    have : op ∈ st.aggregateOps.filter fun o =>
        decide (coversConfirmed o act bn) :=
      List.mem_filter.mpr ⟨hmem, decide_eq_true hcov⟩
    rw [hnil] at this
    cases this

/-- C6: for every stored executed transaction with success=true, `tx_receipt`
returns a receipt whose `verified` flag is true exactly when a confirmed
`ExecuteBlocks` aggregated operation covers the transaction's block number,
and false when no such confirmed covering operation exists. -/
theorem C6_tx_receipt_verified (st : ChainState) (hash : Nat)
    (tx : ExecutedTx) (hfind : get_executed_operation st hash = some tx)
    (hsucc : tx.success = true) :
    ∃ r, tx_receipt st hash = some r ∧ r.blockNumber = tx.blockNumber ∧
      r.success = true ∧
      (r.verified = true ↔
        ∃ op ∈ st.aggregateOps,
          coversConfirmed op .ExecuteBlocks tx.blockNumber) := by
  unfold tx_receipt
  rw [hfind]
  refine ⟨_, rfl, rfl, hsucc, ?_⟩
  cases hop : get_stored_aggregated_operation st tx.blockNumber
      .ExecuteBlocks with
  | none =>
    simp only [hop, Option.map_none', Option.getD_none]
    constructor
    · intro hfalse; cases hfalse
    · intro hex
      have := (get_stored_aggregated_operation_isSome st tx.blockNumber
        .ExecuteBlocks).mpr hex
      rw [hop] at this
      cases this
  | some op =>
    have hc := get_stored_aggregated_operation_spec hop
    simp only [hop, Option.map_some', Option.getD_some]
    exact ⟨fun _ => ⟨op, hc.1, hc.2⟩, fun _ => hc.2.2.1⟩

/-- Witness for C6: a successful transaction at block 10 with a confirmed
ExecuteBlocks range [5, 12] — the theorem instance plus the concrete
evaluation `verified = true` of the claim's example. -/
theorem C6_tx_receipt_verified_witness :
    (∃ r, tx_receipt
        ⟨[⟨1, 10, 0, .null, .null, true, none, 3, none, 0, 0⟩], [],
          [⟨.ExecuteBlocks, 5, 12, true, 77⟩], [], [], [], 0⟩ 1 = some r ∧
      r.blockNumber = 10 ∧ r.success = true ∧
      (r.verified = true ↔
        ∃ op ∈ [AggOp.mk .ExecuteBlocks 5 12 true 77],
          coversConfirmed op .ExecuteBlocks 10)) ∧
    (tx_receipt
        ⟨[⟨1, 10, 0, .null, .null, true, none, 3, none, 0, 0⟩], [],
          [⟨.ExecuteBlocks, 5, 12, true, 77⟩], [], [], [], 0⟩ 1).map
      (fun r => r.verified) = some true :=
  ⟨C6_tx_receipt_verified _ 1 ⟨1, 10, 0, .null, .null, true, none, 3, none, 0, 0⟩
    rfl rfl, by decide⟩

/-! ### C4 -/

/-- C4: for an included batch all of whose members succeeded, the status is
`Finalized` exactly when a confirmed `ExecuteBlocks` aggregated operation
covers the batch's block; `updated_at` is the confirming operation's
timestamp when `Finalized`, and otherwise the status is `Committed` with
`updated_at` the batch's creation timestamp (the reported `created_at`). -/
theorem C4_batch_finalization (st : ChainState) (batchHash : Nat)
    (first : InBlockBatchTx) (rest : List InBlockBatchTx)
    (hm : batchMembers st batchHash = first :: rest)
    (hall : ∀ t ∈ first :: rest, t.success = true) :
    ∃ b, get_in_block_batch_info st batchHash = some b ∧
      b.createdAt = first.createdAt ∧
      (b.batchStatus.lastState = .Finalized ↔
        ∃ op ∈ st.aggregateOps,
          coversConfirmed op .ExecuteBlocks first.blockNumber) ∧
      (∀ op, get_stored_aggregated_operation st first.blockNumber
          .ExecuteBlocks = some op →
        b.batchStatus = ⟨op.createdAt, .Finalized⟩) ∧
      (get_stored_aggregated_operation st first.blockNumber
          .ExecuteBlocks = none →
        b.batchStatus = ⟨first.createdAt, .Committed⟩) := by
  have hfs : first.success = true := hall first (by simp)
  simp only [get_in_block_batch_info, hm, hfs, if_true]
  cases hop : get_stored_aggregated_operation st first.blockNumber
      .ExecuteBlocks with
  | none =>
    refine ⟨_, rfl, rfl, ?_, ?_, fun _ => rfl⟩
    · simp only []
      constructor
      · intro hfalse; cases hfalse
      · intro hex
        have := (get_stored_aggregated_operation_isSome st first.blockNumber
          .ExecuteBlocks).mpr hex
        rw [hop] at this
        cases this
    · intro op hsome
      cases hsome
  | some op =>
    have hc := get_stored_aggregated_operation_spec hop
    refine ⟨_, rfl, rfl, ⟨fun _ => ⟨op, hc.1, hc.2⟩, fun _ => rfl⟩, ?_, ?_⟩
    · intro op0 hsome
      cases hsome
      rfl
    · intro hnone
      cases hnone

/-- Witness for C4: a one-member successful batch at block 10 under a
confirmed ExecuteBlocks range [5, 12]. -/
theorem C4_batch_finalization_witness :
    ∃ b, get_in_block_batch_info
        ⟨[⟨1, 10, 0, .null, .null, true, none, 4, some 2, 0, 0⟩], [],
          [⟨.ExecuteBlocks, 5, 12, true, 77⟩], [], [⟨2, 88⟩], [], 0⟩ 88 =
        some b ∧
      b.createdAt = (4 : Nat) ∧
      (b.batchStatus.lastState = .Finalized ↔
        ∃ op ∈ [AggOp.mk .ExecuteBlocks 5 12 true 77],
          coversConfirmed op .ExecuteBlocks 10) ∧
      (∀ op, get_stored_aggregated_operation
          ⟨[⟨1, 10, 0, .null, .null, true, none, 4, some 2, 0, 0⟩], [],
            [⟨.ExecuteBlocks, 5, 12, true, 77⟩], [], [⟨2, 88⟩], [], 0⟩ 10
          .ExecuteBlocks = some op →
        b.batchStatus = ⟨op.createdAt, .Finalized⟩) ∧
      (get_stored_aggregated_operation
          ⟨[⟨1, 10, 0, .null, .null, true, none, 4, some 2, 0, 0⟩], [],
            [⟨.ExecuteBlocks, 5, 12, true, 77⟩], [], [⟨2, 88⟩], [], 0⟩ 10
          .ExecuteBlocks = none →
        b.batchStatus = ⟨(4 : Nat), .Committed⟩) :=
  C4_batch_finalization _ 88 ⟨1, 4, true, 10, 0⟩ [] (by decide) (by decide)

/-! ### C1 -/

/-- C1 counterexample: the batch with members [success, success, failure] in
creation order is reported `Committed`, not `Rejected` — the failed third
member does not influence the status. -/
theorem C1_counterexample :
    (get_in_block_batch_info batchRejSt 99).map
        (fun b => b.batchStatus.lastState) = some .Committed ∧
      TxInBlockStatus.Committed ≠ .Rejected := by
  constructor
  · decide
  · decide

/-- C1 amended: `get_in_block_batch_info` reports `Rejected` exactly when the
first member in (created_at, block_index) order has success=false; a failed
member at any later position does not make the status `Rejected`. -/
theorem C1_amended_first_member_decides (st : ChainState) (batchHash : Nat)
    (first : InBlockBatchTx) (rest : List InBlockBatchTx)
    (hm : batchMembers st batchHash = first :: rest) :
    ∃ b, get_in_block_batch_info st batchHash = some b ∧
      (b.batchStatus.lastState = .Rejected ↔ first.success = false) := by
  simp only [get_in_block_batch_info, hm]
  cases hfs : first.success with
  | false =>
    simp only [Bool.false_eq_true, if_false]
    exact ⟨_, rfl, by simp⟩
  | true =>
    simp only [if_true]
    cases hop : get_stored_aggregated_operation st first.blockNumber
        .ExecuteBlocks with
    | none => exact ⟨_, rfl, by simp⟩
    | some op => exact ⟨_, rfl, by simp⟩

/-- Witness for C1's amended statement on the concrete store `batchRejSt`. -/
theorem C1_amended_first_member_decides_witness :
    ∃ b, get_in_block_batch_info batchRejSt 99 = some b ∧
      (b.batchStatus.lastState = .Rejected ↔
        (⟨1, 1, true, 5, 0⟩ : InBlockBatchTx).success = false) :=
  C1_amended_first_member_decides batchRejSt 99 ⟨1, 1, true, 5, 0⟩
    [⟨2, 2, true, 5, 1⟩, ⟨3, 3, false, 5, 2⟩] (by decide)

/-! ### C8 -/

/-- C8: token enrichment rewrites the numeric token field to the symbol when
the id is below the NFT threshold and known, to the literal "UNKNOWN" when
below the threshold but unknown, and keeps the numeric id when at/above the
threshold; for Deposit/FullExit the rewritten field is the one nested in the
embedded `priority_op` sub-object, for every other kind the top-level one. -/
theorem C8_token_enrichment (tokens : List Token) (tx : Jx) (tag : String)
    (htag : (tx.get "type").asStr = some tag) (hne : tag ≠ "NONE") :
    ((tag = "Deposit" ∨ tag = "FullExit") →
      ∀ sub, tx.getField? "priority_op" = some sub →
        ∀ n : Nat, sub.getField? "token" = some (.num (n : Int)) →
          n < 18446744073709551616 →
            enrichHistoryTx tokens tx =
              tx.setExisting "priority_op"
                (sub.setExisting "token" (rewriteTokenValue tokens n))) ∧
    (¬(tag = "Deposit" ∨ tag = "FullExit") →
      ∀ n : Nat, tx.getField? "token" = some (.num (n : Int)) →
        n < 18446744073709551616 →
          enrichHistoryTx tokens tx =
            tx.setExisting "token" (rewriteTokenValue tokens n)) ∧
    (∀ n : Nat, n < MIN_NFT_TOKEN_ID →
      (∀ s, lookupTokenSymbol tokens n = some s →
        rewriteTokenValue tokens n = .str s) ∧
      (lookupTokenSymbol tokens n = none →
        rewriteTokenValue tokens n = .str "UNKNOWN")) ∧
    (∀ n : Nat, MIN_NFT_TOKEN_ID ≤ n →
      rewriteTokenValue tokens n = .num (n : Int)) := by
  have hnum : ∀ n : Nat, n < 18446744073709551616 →
      (Jx.num (n : Int)).asU64 = some n := by
    intro n hn
    show Jx.asU64 (.num (.ofNat n)) = some n
    simp only [Jx.asU64]
    rw [if_pos hn]
  refine ⟨?_, ?_, ?_, ?_⟩
  · intro hDF sub hsub n hv hn
    unfold enrichHistoryTx
    rw [htag]
    simp only [Option.getD_some]
    rw [if_neg hne, if_pos hDF]
    simp only [hsub, enrichTokenField, hv, hnum n hn]
  · intro hND n hv hn
    unfold enrichHistoryTx
    rw [htag]
    simp only [Option.getD_some]
    rw [if_neg hne, if_neg hND]
    simp only [enrichTokenField, hv, hnum n hn]
  · intro n hlt
    constructor
    · intro s hs
      unfold rewriteTokenValue
      rw [if_pos hlt, hs]
      rfl
    · intro hs
      unfold rewriteTokenValue
      rw [if_pos hlt, hs]
      rfl
  · intro n hge
    unfold rewriteTokenValue
    rw [if_neg (by omega)]

/-- Witness for C8: a Deposit payload with nested known token 5 (symbol
"PHNX"), a Transfer payload with top-level unknown token 7 and a Transfer
payload with NFT-range token 70000, each enriched as stated. -/
theorem C8_token_enrichment_witness :
    (enrichHistoryTx [⟨5, "PHNX"⟩]
        (.obj [("type", .str "Deposit"),
               ("priority_op", .obj [("token", .num 5), ("amount", .str "1")])]) =
      (Jx.obj [("type", .str "Deposit"),
               ("priority_op", .obj [("token", .num 5), ("amount", .str "1")])]).setExisting
        "priority_op"
        ((Jx.obj [("token", .num 5), ("amount", .str "1")]).setExisting "token"
          (rewriteTokenValue [⟨5, "PHNX"⟩] 5)) ∧
      enrichHistoryTx [⟨5, "PHNX"⟩]
          (.obj [("type", .str "Transfer"), ("token", .num 70000)]) =
        (Jx.obj [("type", .str "Transfer"), ("token", .num 70000)]).setExisting
          "token" (rewriteTokenValue [⟨5, "PHNX"⟩] 70000)) ∧
    rewriteTokenValue [⟨5, "PHNX"⟩] 5 = .str "PHNX" ∧
    rewriteTokenValue [⟨5, "PHNX"⟩] 7 = .str "UNKNOWN" ∧
    rewriteTokenValue [⟨5, "PHNX"⟩] 70000 = .num 70000 :=
  ⟨⟨(C8_token_enrichment [⟨5, "PHNX"⟩]
        (.obj [("type", .str "Deposit"),
               ("priority_op", .obj [("token", .num 5), ("amount", .str "1")])])
        "Deposit" rfl (by decide)).1
      (Or.inl rfl) (.obj [("token", .num 5), ("amount", .str "1")]) rfl 5 rfl
      (by decide),
    (C8_token_enrichment [⟨5, "PHNX"⟩]
        (.obj [("type", .str "Transfer"), ("token", .num 70000)])
        "Transfer" rfl (by decide)).2.1
      (by decide) 70000 rfl (by decide)⟩,
   ((C8_token_enrichment [⟨5, "PHNX"⟩] (.obj [("type", .str "Swap")]) "Swap"
      rfl (by decide)).2.2.1 5 (by decide)).1 "PHNX" rfl,
   ((C8_token_enrichment [⟨5, "PHNX"⟩] (.obj [("type", .str "Swap")]) "Swap"
      rfl (by decide)).2.2.1 7 (by decide)).2 rfl,
   (C8_token_enrichment [⟨5, "PHNX"⟩] (.obj [("type", .str "Swap")]) "Swap"
      rfl (by decide)).2.2.2 70000 (by decide)⟩

/-! ### C7 -/

/-- C7 counterexample: `get_tx_by_hash` on a stored priority operation whose
payload is missing `priority_op.token` runs into `.expect("must be here")`
(mod.rs line 506) and panics instead of skipping the entry or substituting a
sentinel. -/
theorem C7_counterexample :
    get_tx_by_hash panicSt 5 = .error "must be here" := rfl

theorem find_priority_op_by_hash_ok (st : ChainState) (hash : Nat)
    (tx : ExecutedPriorityOp)
    (hfind : get_executed_priority_operation_by_eth_hash st hash = some tx)
    (v : Int)
    (hv : ((tx.operation.get "priority_op").get "token").asI64 = some v) :
    ∃ r, find_priority_op_by_hash st hash = .ok r := by
  simp only [find_priority_op_by_hash, hfind, hv]
  exact ⟨_, rfl⟩

/-- C7 amended: the history token enrichment never aborts — an entry whose
kind tag is missing/non-string, or whose Deposit/FullExit payload lacks the
`priority_op` sub-object, is left unmodified and the page keeps every entry —
and `get_tx_by_hash` is panic-free whenever every stored priority-op payload
carries an integer `priority_op.token`; when that one field is missing or
non-integer the priority-op point lookup panics (see `C7_counterexample`)
rather than degrading to sentinels. -/
theorem C7_amended_no_abort_except_priority_token :
    (∀ (tokens : List Token) (tx : Jx), (tx.get "type").asStr = none →
      enrichHistoryTx tokens tx = tx) ∧
    (∀ (tokens : List Token) (tx : Jx) (tag : String),
      (tx.get "type").asStr = some tag →
      (tag = "Deposit" ∨ tag = "FullExit") →
      tx.getField? "priority_op" = none → enrichHistoryTx tokens tx = tx) ∧
    (∀ st addr offset limit,
      (get_account_transactions_history st addr offset limit).length =
        ((((history_candidates st addr).insertionSort
            (byKeyDesc hKey)).drop offset).take limit).length) ∧
    (∀ (st : ChainState) (hash : Nat),
      (∀ p ∈ st.executedPriorityOps,
        (((p.operation.get "priority_op").get "token").asI64).isSome = true) →
      ∃ r, get_tx_by_hash st hash = .ok r) := by
  refine ⟨?_, ?_, ?_, ?_⟩
  · intro tokens tx h
    unfold enrichHistoryTx
    rw [h]
    simp
  · intro tokens tx tag htag hDF hsub
    have hne : tag ≠ "NONE" := by
      rcases hDF with h | h <;> subst h <;> decide
    unfold enrichHistoryTx
    rw [htag]
    simp only [Option.getD_some]
    rw [if_neg hne, if_pos hDF]
    simp only [hsub]
  · intro st addr offset limit
    unfold get_account_transactions_history
    simp
  · intro st hash hp
    unfold get_tx_by_hash
    cases hf : find_tx_by_hash st hash with
    | some r => exact ⟨some r, rfl⟩
    | none =>
      cases hfind : get_executed_priority_operation_by_eth_hash st hash with
      | none =>
        simp only [find_priority_op_by_hash, hfind]
        exact ⟨none, rfl⟩
      | some tx =>
        have hmem : tx ∈ st.executedPriorityOps := by
          unfold get_executed_priority_operation_by_eth_hash at hfind
          exact List.mem_of_find?_eq_some hfind
        obtain ⟨v, hv⟩ := Option.isSome_iff_exists.mp (hp tx hmem)
        exact find_priority_op_by_hash_ok st hash tx hfind v hv

/-- Witness for C7's amended statement at concrete inputs: a tagless payload
is left unchanged, a Deposit payload without `priority_op` is left unchanged,
the offset page keeps its length, and a well-formed priority operation is
looked up without a panic. -/
theorem C7_amended_no_abort_except_priority_token_witness :
    enrichHistoryTx [] .null = .null ∧
    enrichHistoryTx [] (.obj [("type", .str "Deposit")]) =
      .obj [("type", .str "Deposit")] ∧
    (get_account_transactions_history panicSt 0 0 1).length =
      ((((history_candidates panicSt 0).insertionSort
          (byKeyDesc hKey)).drop 0).take 1).length ∧
    ∃ r, get_tx_by_hash priorityOkSt 5 = .ok r :=
  ⟨C7_amended_no_abort_except_priority_token.1 [] .null rfl,
   C7_amended_no_abort_except_priority_token.2.1 [] _ "Deposit" rfl
     (Or.inl rfl) rfl,
   C7_amended_no_abort_except_priority_token.2.2.1 panicSt 0 0 1,
   C7_amended_no_abort_except_priority_token.2.2.2 priorityOkSt 5
     (by decide)⟩

/-! ### C3 -/

theorem u64ToI64_of_lt {n : Nat} (h : n < 9223372036854775808) :
    u64ToI64 n = (n : Int) := if_pos h

theorem u64ToI32_of_lt {n : Nat} (h : n < 2147483648) :
    u64ToI32 n = (n : Int) := by
  unfold u64ToI32 wrapI32
  omega

theorem cursorWindow_older_iff {blockId blockTxId bn bi : Nat}
    (hcb : blockId < 9223372036854775808) (hct : blockTxId < 2147483648) :
    cursorWindow .Older (blockId, blockTxId) bn bi ↔
      keyLt (bn, bi) (blockId, blockTxId) := by
  unfold cursorWindow keyLt
  simp only [u64ToI64_of_lt hcb, u64ToI32_of_lt hct]
  omega

theorem cursorWindow_newer_iff {blockId blockTxId bn bi : Nat}
    (hcb : blockId < 9223372036854775808) (hct : blockTxId < 2147483648)
    (hbn : bn ≤ 9223372036854775807) (hbi : bi ≤ 2147483647) :
    cursorWindow .Newer (blockId, blockTxId) bn bi ↔
      keyLt (blockId, blockTxId) (bn, bi) := by
  unfold cursorWindow keyLt
  simp only [u64ToI64_of_lt hcb, u64ToI32_of_lt hct]
  omega

theorem history_candidates_bounds {st : ChainState} (hb : stateRowBoundsOk st)
    {addr : Nat} {r : HistRow} (hr : r ∈ history_candidates st addr) :
    r.txId.1 ≤ 9223372036854775807 ∧ r.txId.2 ≤ 2147483647 := by
  unfold history_candidates at hr
  rw [List.mem_append] at hr
  rcases hr with hr | hr <;> rw [List.mem_map] at hr
  · obtain ⟨x, hx, rfl⟩ := hr
    exact hb.1 x (List.mem_filter.mp hx).1
  · obtain ⟨x, hx, rfl⟩ := hr
    exact hb.2 x (List.mem_filter.mp hx).1

theorem history_from_mem {st : ChainState} {addr : Nat} {txId : Nat × Nat}
    {direction : SearchDirection} {limit : Nat} {it : TransactionsHistoryItem}
    (hit : it ∈ get_account_transactions_history_from st addr txId direction
      limit) :
    ∃ r ∈ history_candidates st addr,
      cursorWindow direction txId r.txId.1 r.txId.2 ∧ it.txId = r.txId := by
  simp only [get_account_transactions_history_from] at hit
  rw [List.mem_map] at hit
  obtain ⟨it0, hit0, rfl⟩ := hit
  rw [List.mem_insertionSort, List.mem_map] at hit0
  obtain ⟨r, hr, rfl⟩ := hit0
  have hr' := List.take_subset limit _ hr
  rw [List.mem_insertionSort, List.mem_filter] at hr'
  exact ⟨r, hr'.1, of_decide_eq_true hr'.2, rfl⟩

theorem history_from_sortedDesc (st : ChainState) (addr : Nat)
    (txId : Nat × Nat) (direction : SearchDirection) (limit : Nat) :
    List.Pairwise (fun a b => pairLe (itemKey b) (itemKey a))
      (get_account_transactions_history_from st addr txId direction limit) := by
  simp only [get_account_transactions_history_from]
  rw [List.pairwise_map]
  exact List.sorted_insertionSort (byKeyDesc itemKey) _

theorem history_from_length_le (st : ChainState) (addr : Nat)
    (txId : Nat × Nat) (direction : SearchDirection) (limit : Nat) :
    (get_account_transactions_history_from st addr txId direction
      limit).length ≤ limit := by
  simp only [get_account_transactions_history_from]
  rw [List.length_map, List.length_insertionSort, List.length_map]
  exact List.length_take_le _ _

/-- C3 amended: for a cursor with in-range components, `Older` pages contain
only entries with order key strictly below the cursor and `Newer` pages only
entries strictly above it, each page holds at most `limit` entries — but BOTH
directions are returned in descending (block_number, created_at) order (the
claim's ascending order for `Newer` does not hold; see the counterexample). -/
theorem C3_amended_cursor_pages (st : ChainState) (addr : Nat)
    (blockId blockTxId limit : Nat) (hb : stateRowBoundsOk st)
    (hcb : blockId < 9223372036854775808) (hct : blockTxId < 2147483648) :
    (∀ direction,
      (get_account_transactions_history_from st addr (blockId, blockTxId)
        direction limit).length ≤ limit) ∧
    (∀ direction,
      List.Pairwise (fun a b => pairLe (itemKey b) (itemKey a))
        (get_account_transactions_history_from st addr (blockId, blockTxId)
          direction limit)) ∧
    (∀ it ∈ get_account_transactions_history_from st addr
        (blockId, blockTxId) .Older limit,
      keyLt it.txId (blockId, blockTxId)) ∧
    (∀ it ∈ get_account_transactions_history_from st addr
        (blockId, blockTxId) .Newer limit,
      keyLt (blockId, blockTxId) it.txId) := by
  refine ⟨fun d => history_from_length_le st addr _ d limit,
    fun d => history_from_sortedDesc st addr _ d limit, ?_, ?_⟩
  · intro it hit
    obtain ⟨r, hr, hw, heq⟩ := history_from_mem hit
    rw [heq]
    exact (cursorWindow_older_iff hcb hct).mp hw
  · intro it hit
    obtain ⟨r, hr, hw, heq⟩ := history_from_mem hit
    have hbd := history_candidates_bounds hb hr
    rw [heq]
    exact (cursorWindow_newer_iff hcb hct hbd.1 hbd.2).mp hw

/-- C3 counterexample: with cursor (0, 0), direction Newer and limit 10 the
page comes back as keys [(2,0), (1,0)] — descending — so its adjacent pair
violates the claimed ascending invariant key(e1) ≤ key(e2). -/
theorem C3_counterexample :
    ((get_account_transactions_history_from cxSt 7 (0, 0) .Newer 10).map
        fun it => it.txId) = [(2, 0), (1, 0)] ∧
      ¬ pairLe (2, 0) (1, 0) := by
  constructor
  · decide
  · decide

/-- Witness for C3's amended statement at the concrete store `cxSt`. -/
theorem C3_amended_cursor_pages_witness :
    (∀ direction,
      (get_account_transactions_history_from cxSt 7 (0, 0)
        direction 10).length ≤ 10) ∧
    (∀ direction,
      List.Pairwise (fun a b => pairLe (itemKey b) (itemKey a))
        (get_account_transactions_history_from cxSt 7 (0, 0)
          direction 10)) ∧
    (∀ it ∈ get_account_transactions_history_from cxSt 7 (0, 0) .Older 10,
      keyLt it.txId (0, 0)) ∧
    (∀ it ∈ get_account_transactions_history_from cxSt 7 (0, 0) .Newer 10,
      keyLt (0, 0) it.txId) :=
  C3_amended_cursor_pages cxSt 7 0 0 10 (by decide) (by decide) (by decide)

/-! ### C2 -/

set_option maxRecDepth 8192 in
/-- C2: the statement text the two-account page builds contains the token
"SECECT" where its main SELECT keyword should be and joins
`executed_priority_operations` (for every token/direction variant), and a
concrete two-address page request with a resolvable cursor evaluates to an
error — the page always fails, returning neither the claimed executed
transactions nor anything else. -/
theorem C2_two_address_page_always_fails :
    (∀ (tokenPresent : Bool) (dir : PaginationDirection),
      containsRun "SECECT".toList
          (twoAccountQueryText tokenPresent dir).toList = true ∧
        containsRun "FROM tx_hashes INNER JOIN executed_priority_operations".toList
          (twoAccountQueryText tokenPresent dir).toList = true) ∧
      ∃ e, get_account_transactions c2St
        ⟨⟨1, .inl 3, some 2, none⟩, 10, .Older⟩ = .error e := by
  constructor
  · intro tokenPresent dir
    cases tokenPresent <;> cases dir <;> exact ⟨by decide, by decide⟩
  · exact ⟨_, rfl⟩

end OpsExt
